import Mathlib

set_option autoImplicit false

/-!
Verification of the aca-ally AI orchestration, conversation storage, and
engagement-ranking subsystems.

The definitions below are shallow embeddings of the TypeScript sources:

* `getIntegratedHomeworkHelp` embeds
  `src/client/src/lib/homeworkHelpService.ts` (the fallback orchestrator);
  provider helper services are passed in as functions on the persisted-turn
  log, mirroring the fact that the orchestrator simply awaits the imported
  helper, which either resolves with a response or rejects.
* `geminiHelpSvc`, `perplexityHelpSvc`, `openaiHelpSvc` embed the client
  helper services `getGeminiHomeworkHelp`, `getPerplexityHomeworkHelp` and
  the client `getHomeworkHelp` (OpenAI), including the chat turns those
  helpers themselves persist on success, for the authenticated-user case.
* `saveChatMessageToStorage`, `loadChatHistoryFromStorage`,
  `clearChatHistory` embed `src/client/src/lib/chatStorageService.ts`;
  the browser `localStorage` cell is an `Option (List ChatSession)` and
  possible `localStorage`/`JSON.parse` exceptions are explicit boolean
  failure flags.  A thrown exception is an `Except.error`; the TypeScript
  try/catch blocks become matches on the fallible body.
* `getTrendingPosts`, `getTrendingPostsWithMetrics`,
  `getPostEngagementMetrics`-style rate computation embed the storage
  queries of the server `DatabaseStorage` class.  SQL `ORDER BY expr DESC`
  is embedded as a stable descending sort on the expression; `LIMIT` is
  `List.take`; the `WHERE` clause is `List.filter`; rational arithmetic
  replaces JS floating point, with `toFixed(2)` as round-half-up to two
  decimal places.
* `getAIChatResponse`, `getPerplexityResponse`, `getGeminiResponse` embed
  the server provider clients of `src/server/openai.ts` and
  `src/server/perplexity.ts`; the network/SDK outcome is a parameter.
-/

/-- Chat message role, from `chatStorageService.ts` (`'user' | 'assistant'`). -/
inductive Role where
  | user
  | assistant
deriving DecidableEq

/-- A chat turn as passed to `saveChatMessageToStorage` by the orchestrator:
role and content (the `userId` argument is the same for all four calls of one
exchange and is omitted here). -/
structure Turn where
  role : Role
  content : String
deriving DecidableEq

/-- A provider helper service, as seen by the orchestrator: it receives the
current persisted-turn log, and either succeeds - returning the log extended
with any turns the helper itself persisted, plus the assistant text - or
rejects (`none`), in which case it persisted nothing (true of all three
helpers in the source: their saves happen only after a successful response). -/
def Svc : Type := List Turn → Option (List Turn × String)

/-- A provider helper with no persistence side effects of its own: used to
state orchestrator-level properties where the imported helpers are opaque. -/
def pureSvc (r : Option String) : Svc := fun log => r.map (fun t => (log, t))

/-- The fixed degraded-service message of `getIntegratedHomeworkHelp`
(`homeworkHelpService.ts` line 108). -/
def degradedMessage : String :=
  "I\x27m sorry, but I\x27m having trouble connecting to my knowledge services right now. Please try again in a few moments, or try rephrasing your question."

/-- Attribution suffix appended to a successful Gemini answer
(`homeworkHelpService.ts` line 40). -/
def poweredByGemini : String := "\n\n(Powered by Google Gemini)"

/-- Attribution suffix appended to a successful Perplexity answer
(`homeworkHelpService.ts` line 65). -/
def poweredByPerplexity : String := "\n\n(Powered by Perplexity AI)"

/-- Result of one orchestrated exchange: the turns passed to
`saveChatMessageToStorage` in order, the content returned to the caller, the
`source` field of the returned assistant message, and the provider helpers
invoked, in order. -/
structure OrchResult where
  savedTurns : List Turn
  returnedContent : String
  source : String
  invoked : List String
deriving DecidableEq

/-- Embedding of `getIntegratedHomeworkHelp` (`homeworkHelpService.ts`
lines 21-127).  The user message is persisted first; then Gemini, Perplexity
and OpenAI helpers are tried in order inside nested try/catch blocks; the
first success persists the (possibly annotated) assistant message and
returns; if all three reject, the fixed degraded message is persisted and
returned with `source: 'Error'`.  No user (`loadUserFromLocalStorage`
returning null) throws `'User not authenticated'`. -/
def getIntegratedHomeworkHelp (user : Option Nat) (subject question : String)
    (gemini perplexity openai : Svc) : Except String OrchResult :=
  match user with
  | none => .error "User not authenticated"
  | some _ =>
    let userTurn : Turn := ⟨Role.user, "[" ++ subject ++ "] " ++ question⟩
    let log1 : List Turn := [userTurn]
    match gemini log1 with
    | some (log2, t) =>
        let message := t ++ poweredByGemini
        .ok ⟨log2 ++ [⟨Role.assistant, message⟩], message, "Gemini", ["Gemini"]⟩
    | none =>
      match perplexity log1 with
      | some (log2, t) =>
          let message := t ++ poweredByPerplexity
          .ok ⟨log2 ++ [⟨Role.assistant, message⟩], message, "Perplexity",
            ["Gemini", "Perplexity"]⟩
      | none =>
        match openai log1 with
        | some (log2, t) =>
            .ok ⟨log2 ++ [⟨Role.assistant, t⟩], t, "OpenAI",
              ["Gemini", "Perplexity", "OpenAI"]⟩
        | none =>
            .ok ⟨log1 ++ [⟨Role.assistant, degradedMessage⟩], degradedMessage,
              "Error", ["Gemini", "Perplexity", "OpenAI"]⟩

/-- Lower-case a string, as JS `String.prototype.toLowerCase` on the
character list. -/
def strToLower (s : String) : String := ⟨s.data.map Char.toLower⟩

/-- JS `String.prototype.includes`: `pat` occurs as a contiguous substring. -/
def strIncludes (s pat : String) : Bool :=
  (List.range (s.data.length + 1)).any fun i => pat.data.isPrefixOf (s.data.drop i)

/-- Embedding of the client `generateHomeworkHelp` local fallback
(`src/unnamed/part_013` lines 253-286): a keyword table on the lower-cased
subject. -/
def generateHomeworkHelp (subject _question : String) : String :=
  let s := strToLower subject
  if strIncludes s "math" then
    "For this math problem, I would normally break it down step by step, identifying the key concepts needed and walking through the solution process. Since we\x27re operating offline right now, I recommend applying relevant formulas, checking your work, and comparing with similar examples in your textbook."
  else if strIncludes s "physics" then
    "This physics question likely involves understanding key principles, identifying relevant equations, and methodically working through the problem. When online, I could provide more specific guidance about force, energy, momentum, or other physics topics relevant to your question."
  else if strIncludes s "chemistry" then
    "Chemistry questions often involve understanding reactions, molecular structures, or chemical properties. I would typically walk you through the concepts, balancing equations if needed, and explaining the underlying principles."
  else if strIncludes s "biology" then
    "In biology, understanding processes, systems, and relationships is key. Your question likely involves cellular processes, ecological relationships, or physiological systems. I would normally explain the relevant concepts and how they apply to your specific question."
  else if strIncludes s "history" then
    "Historical analysis involves understanding context, causes, effects, and perspectives. When examining historical events or figures, consider the economic, social, political, and cultural factors involved. Primary and secondary sources would help provide a more complete picture."
  else if strIncludes s "literature" || strIncludes s "english" then
    "Literary analysis involves examining themes, characters, symbolism, and context. Consider the author\x27s purpose, the historical context, and how literary devices contribute to meaning. Look for textual evidence to support your interpretations."
  else if strIncludes s "language" || strIncludes s "spanish" || strIncludes s "french" then
    "Language learning involves vocabulary, grammar rules, and cultural context. Practice is essential, as is understanding how the grammatical structures differ from your native language. Context and usage examples can help solidify your understanding."
  else
    "To address this homework question effectively, I\x27d break down the problem, identify key concepts, and work through a step-by-step solution. When we\x27re back online, I can provide more specific guidance tailored to your exact question."

/-- The user-turn content persisted by every homework helper:
`[subject] question`. -/
def helperUserContent (subject question : String) : String :=
  "[" ++ subject ++ "] " ++ question

/-- Embedding of the client `getGeminiHomeworkHelp` (`src/unnamed/part_015`
lines 159-253), authenticated case.  It first tries the server API; if that
fails it tries the client-side Gemini SDK; either success persists the user
turn and the (unannotated) assistant turn before returning; if both fail the
error is rethrown with nothing persisted. -/
def geminiHelpSvc (subject question : String)
    (server clientSide : Option String) : Svc := fun log =>
  match server with
  | some t =>
      some (log ++ [⟨Role.user, helperUserContent subject question⟩,
        ⟨Role.assistant, t⟩], t)
  | none =>
    match clientSide with
    | some t =>
        some (log ++ [⟨Role.user, helperUserContent subject question⟩,
          ⟨Role.assistant, t⟩], t)
    | none => none

/-- Embedding of the client `getPerplexityHomeworkHelp`
(`src/unnamed/part_016` lines 68-111), authenticated case: on server success
it persists the user and assistant turns and returns; on failure it rethrows
with nothing persisted. -/
def perplexityHelpSvc (subject question : String)
    (server : Option String) : Svc := fun log =>
  match server with
  | some t =>
      some (log ++ [⟨Role.user, helperUserContent subject question⟩,
        ⟨Role.assistant, t⟩], t)
  | none => none

/-- Embedding of the client OpenAI `getHomeworkHelp` (`src/unnamed/part_013`
lines 99-168), authenticated case: on server success it persists both turns
and returns; on any failure it catches the error and persists the user turn
plus a locally generated `generateHomeworkHelp` answer - it never rejects. -/
def openaiHelpSvc (subject question : String)
    (server : Option String) : Svc := fun log =>
  match server with
  | some t =>
      some (log ++ [⟨Role.user, helperUserContent subject question⟩,
        ⟨Role.assistant, t⟩], t)
  | none =>
      let t := generateHomeworkHelp subject question
      some (log ++ [⟨Role.user, helperUserContent subject question⟩,
        ⟨Role.assistant, t⟩], t)

/-- Number of turns persisted during an orchestrated exchange, when it
returned normally. -/
def resultTurnCount (e : Except String OrchResult) : Option Nat :=
  (e.toOption.map OrchResult.savedTurns).map List.length

/-- The `source` attribution of an orchestrated exchange that returned
normally. -/
def resultSource (e : Except String OrchResult) : Option String :=
  e.toOption.map OrchResult.source

/-- The returned assistant content of an orchestrated exchange that returned
normally. -/
def resultText (e : Except String OrchResult) : Option String :=
  e.toOption.map OrchResult.returnedContent

/-- A stored chat message (`chatStorageService.ts` `ChatMessage`); the ISO
timestamp is a tick count and the generated unique id an opaque string. -/
structure ChatMessage where
  id : String
  userId : Nat
  content : String
  role : Role
  createdAt : Nat
deriving DecidableEq

/-- A per-user session in the local-storage cache
(`chatStorageService.ts` `ChatSession`). -/
structure ChatSession where
  userId : Nat
  messages : List ChatMessage
  lastUpdated : Nat
deriving DecidableEq

/-- The message object built by `saveChatMessageToStorage` before writing:
fresh id, the caller-supplied userId/content/role, current time. -/
def mkChatMessage (newId : String) (now : Nat) (userId : Nat) (role : Role)
    (content : String) : ChatMessage :=
  ⟨newId, userId, content, role, now⟩

/-- The session-list update of `saveChatMessageToStorage` lines 74-88: the
first session with this `userId` gets the message pushed and `lastUpdated`
refreshed; if none exists a new session is pushed at the end. -/
def addMessageToSessions (userId : Nat) (now : Nat) (msg : ChatMessage) :
    List ChatSession → List ChatSession
  | [] => [⟨userId, [msg], now⟩]
  | s :: rest =>
      if s.userId == userId then
        ⟨s.userId, s.messages ++ [msg], now⟩ :: rest
      else
        s :: addMessageToSessions userId now msg rest

/-- The fallible body of `saveChatMessageToStorage` (everything inside its
`try`): reading/parsing the stored sessions can throw (`readFails`), and the
final `localStorage.setItem` can throw (`writeFails`); on success it yields
the updated session list and the new message. -/
def saveChatBody (readFails writeFails : Bool)
    (store : Option (List ChatSession)) (userId : Nat) (role : Role)
    (content : String) (newId : String) (now : Nat) :
    Except Unit (List ChatSession × ChatMessage) :=
  if readFails then .error ()
  else
    let newMessage := mkChatMessage newId now userId role content
    let sessions := store.getD []
    let sessions' := addMessageToSessions userId now newMessage sessions
    if writeFails then .error ()
    else .ok (sessions', newMessage)

/-- Embedding of `saveChatMessageToStorage` (`chatStorageService.ts`
lines 45-111).  The whole body is wrapped in try/catch: any failure is caught
and a freshly built fallback message is returned with the store untouched.
The background `submitChatMessageToServer` call swallows its own failure
(`remoteFails`) and affects neither the store nor the result.  The
`Except`-typed result records what the caller can observe: the function
never throws, so it is always `.ok` of the resulting store and the returned
message. -/
def saveChatMessageToStorage (readFails writeFails remoteFails : Bool)
    (store : Option (List ChatSession)) (userId : Nat) (role : Role)
    (content : String) (newId : String) (now : Nat) :
    Except Unit (Option (List ChatSession) × ChatMessage) :=
  match saveChatBody readFails writeFails store userId role content newId now with
  | .ok (sessions', newMessage) =>
      let _ := remoteFails
      .ok (some sessions', newMessage)
  | .error _ =>
      .ok (store, mkChatMessage newId now userId role content)

/-- Embedding of `loadChatHistoryFromStorage` (`chatStorageService.ts`
lines 27-40): missing key or any parse error yields `[]`, otherwise the
messages of the first session with this `userId` (or `[]`). -/
def loadChatHistoryFromStorage (readFails : Bool)
    (store : Option (List ChatSession)) (userId : Nat) : List ChatMessage :=
  if readFails then []
  else
    match store with
    | none => []
    | some sessions =>
        match sessions.find? (fun s => s.userId == userId) with
        | some s => s.messages
        | none => []

/-- Embedding of `clearChatHistory` (`chatStorageService.ts` lines 116-140):
missing key returns early; the user's sessions are filtered out and written
back; a read/parse or write failure is caught and leaves the store
unchanged; the server sync is fire-and-forget. -/
def clearChatHistory (readFails writeFails : Bool)
    (store : Option (List ChatSession)) (userId : Nat) :
    Option (List ChatSession) :=
  if readFails then store
  else
    match store with
    | none => store
    | some sessions =>
        if writeFails then store
        else some (sessions.filter (fun s => s.userId != userId))

/-- The session stored for user `u`, if any: what `find?` on the cached
session list yields. -/
def sessionFor (store : Option (List ChatSession)) (u : Nat) :
    Option ChatSession :=
  (store.getD []).find? (fun s => s.userId == u)

/-- The store component of a `saveChatMessageToStorage` result. -/
def storeAfterSave
    (r : Except Unit (Option (List ChatSession) × ChatMessage))
    (orig : Option (List ChatSession)) : Option (List ChatSession) :=
  match r with
  | .ok (s, _) => s
  | .error _ => orig

/-- A post row, with the columns the trending/engagement queries read
(schema of the `posts` table). -/
structure Post where
  id : Nat
  userId : Nat
  visibility : String
  views : Nat
  likes : Nat
  saves : Nat
  comments : Nat
  createdAt : Nat
deriving DecidableEq

/-- The SQL trending-score expression of `getTrendingPosts`
(`src/unnamed/part_000` line 246): `likes * 2 + views + saves * 3`. -/
def trendingScoreSql (views likes saves : Nat) : Nat :=
  likes * 2 + views + saves * 3

/-- The SQL trending-score expression of `getTrendingPostsWithMetrics`
(`src/unnamed/part_000` line 525): `views + likes * 2 + saves * 3`. -/
def trendingScoreMetricsSql (views likes saves : Nat) : Nat :=
  views + likes * 2 + saves * 3

/-- Insert into a list sorted descending by `key`, keeping the inserted
element before later elements with an equal key (stability of the
`ORDER BY ... DESC` embedding). -/
def insertByKeyDesc {α : Type} (key : α → Nat) (a : α) : List α → List α
  | [] => [a]
  | b :: bs =>
      if key b ≤ key a then a :: b :: bs
      else b :: insertByKeyDesc key a bs

/-- Stable sort, descending by `key`: the embedding of SQL
`ORDER BY expr DESC` (the source queries give no secondary sort key, so ties
keep their relative row order). -/
def sortByKeyDesc {α : Type} (key : α → Nat) : List α → List α
  | [] => []
  | x :: xs => insertByKeyDesc key x (sortByKeyDesc key xs)

/-- Embedding of `getTrendingPosts` (`src/unnamed/part_000` lines 244-254):
public posts, ordered by the trending-score expression descending, first
`limit` rows (default 10). -/
def getTrendingPosts (db : List Post) (limit : Nat := 10) : List Post :=
  (sortByKeyDesc (fun p => trendingScoreSql p.views p.likes p.saves)
    (db.filter (fun p => p.visibility == "public"))).take limit

/-- Embedding of `getTrendingPostsWithMetrics` (`src/unnamed/part_000`
lines 509-527): all posts inner-joined with `users` (rows whose author id is
among the stored user ids, those being unique), ordered by the
trending-score expression descending, first `limit` rows (default 10).
There is no visibility condition in this query. -/
def getTrendingPostsWithMetrics (db : List Post) (users : List Nat)
    (limit : Nat := 10) : List Post :=
  (sortByKeyDesc (fun p => trendingScoreMetricsSql p.views p.likes p.saves)
    (db.filter (fun p => users.contains p.userId))).take limit

/-- Round-half-up to two decimal places: the exact-rational reading of JS
`Number.prototype.toFixed(2)` on the non-negative values at hand. -/
def round2 (q : ℚ) : ℚ := (⌊q * 100 + 1 / 2⌋ : ℚ) / 100

/-- The engagement-rate computation of `getPostEngagementMetrics`
(`src/unnamed/part_000` lines 579-581):
`views > 0 ? (totalInteractions / views * 100).toFixed(2) : 0`. -/
def engagementRate (views likes saves comments : Nat) : ℚ :=
  if 0 < views then
    round2 (((likes : ℚ) + saves + comments) / (views : ℚ) * 100)
  else 0

/-- The engagement-rate formula as the claim states it:
`(likes + saves + comments) / max(views, 1) * 100` rounded to two decimal
places. -/
def engagementRateClaimed (views likes saves comments : Nat) : ℚ :=
  round2 (((likes : ℚ) + saves + comments) / ((max views 1 : Nat) : ℚ) * 100)

/-- Trending-list example: older post with score 10. -/
def trendPostA : Post := ⟨1, 1, "public", 10, 0, 0, 0, 1⟩

/-- Trending-list example: newer post with the same score 10. -/
def trendPostB : Post := ⟨2, 1, "public", 10, 0, 0, 0, 2⟩

/-- Trending-list example: post with score 5. -/
def trendPostC : Post := ⟨3, 1, "public", 5, 0, 0, 0, 3⟩

/-- A non-public post with a high score, for the
`getTrendingPostsWithMetrics` visibility check. -/
def trendPostPrivate : Post := ⟨9, 7, "private", 100, 0, 0, 0, 5⟩

/-- The substitute answer `getAIChatResponse` returns when the OpenAI call
throws (`src/server/openai.ts` line 27). -/
def openaiSubstituteError : String :=
  "Sorry, I\x27m having trouble connecting to my knowledge base right now. Please try again later."

/-- The substitute used by `getAIChatResponse` when the response content is
empty/null (`src/server/openai.ts` line 24). -/
def openaiEmptySubstitute : String :=
  "I couldn\x27t process your request. Please try again."

/-- Embedding of the server `getAIChatResponse` (`src/server/openai.ts`
lines 8-29).  `apiOutcome` is the outcome of the single SDK call: an error,
or a completion whose `message.content` may be null.  The whole call is in
try/catch and every branch returns normally. -/
def getAIChatResponse (apiOutcome : Except Unit (Option String)) :
    Except String String :=
  match apiOutcome with
  | .ok content => .ok (content.getD openaiEmptySubstitute)
  | .error _ => .ok openaiSubstituteError

/-- What the Perplexity `fetch` resolves to: the `ok` flag and the parsed
`choices[0].message.content`. -/
structure FetchResponse where
  ok : Bool
  content : String
deriving DecidableEq

/-- Embedding of the server `getPerplexityResponse`
(`src/server/perplexity.ts` lines 67-120): missing key throws eagerly
without calling the backend; a fetch error or a non-`ok` status is rethrown
as the fixed failure message; otherwise the content is returned.  The single
fetch is never retried. -/
def getPerplexityResponse (apiKey : Option String)
    (fetchOutcome : Except Unit FetchResponse) : Except String String :=
  match apiKey with
  | none => .error "Perplexity API key not configured"
  | some _ =>
    match fetchOutcome with
    | .error _ => .error "Failed to get response from Perplexity API"
    | .ok resp =>
        if resp.ok then .ok resp.content
        else .error "Failed to get response from Perplexity API"

/-- Embedding of the server `getGeminiResponse` (`src/server/openai.ts`
lines 884-916): when a system instruction is given, a priming
`chat.sendMessage` runs first and its failure aborts; then the prompt is
sent once; any SDK failure is rethrown as the fixed failure message.  No
step is retried. -/
def getGeminiResponse (systemInstruction : Option String)
    (primingOutcome : Except Unit Unit)
    (promptOutcome : Except Unit String) : Except String String :=
  match systemInstruction with
  | some _ =>
    match primingOutcome with
    | .error _ => .error "Failed to get response from Gemini API"
    | .ok _ =>
      match promptOutcome with
      | .ok t => .ok t
      | .error _ => .error "Failed to get response from Gemini API"
  | none =>
    match promptOutcome with
    | .ok t => .ok t
    | .error _ => .error "Failed to get response from Gemini API"

/-- A concrete two-user local-storage cache: user 1 with an empty session,
user 2 with one stored message. -/
def c10Store : Option (List ChatSession) :=
  some [⟨1, [], 0⟩, ⟨2, [⟨"m1", 2, "x", Role.user, 1⟩], 1⟩]

theorem insertByKeyDesc_perm {α : Type} (key : α → Nat) (a : α) :
    ∀ l : List α, (insertByKeyDesc key a l).Perm (a :: l)
  | [] => List.Perm.refl _
  | b :: bs => by
    rw [insertByKeyDesc]
    split
    · exact List.Perm.refl _
    · exact ((insertByKeyDesc_perm key a bs).cons b).trans
        (List.Perm.swap a b bs)

theorem sortByKeyDesc_perm {α : Type} (key : α → Nat) :
    ∀ l : List α, (sortByKeyDesc key l).Perm l
  | [] => List.Perm.refl _
  | x :: xs => by
    rw [sortByKeyDesc]
    exact (insertByKeyDesc_perm key x (sortByKeyDesc key xs)).trans
      ((sortByKeyDesc_perm key xs).cons x)

theorem head?_insertByKeyDesc {α : Type} (key : α → Nat) (a : α) :
    ∀ l : List α, (insertByKeyDesc key a l).head? = some a ∨
      (insertByKeyDesc key a l).head? = l.head?
  | [] => Or.inl rfl
  | b :: bs => by
    rw [insertByKeyDesc]
    split
    · exact Or.inl rfl
    · exact Or.inr rfl

theorem chain'_insertByKeyDesc {α : Type} (key : α → Nat) (a : α) :
    ∀ l : List α, List.Chain' (fun x y => key y ≤ key x) l →
      List.Chain' (fun x y => key y ≤ key x) (insertByKeyDesc key a l)
  | [], _ => List.chain'_singleton a
  | b :: bs, h => by
    rw [insertByKeyDesc]
    rcases List.chain'_cons'.mp h with ⟨hb, hbs⟩
    split
    next hba =>
      exact List.chain'_cons'.mpr ⟨fun y hy => by
        rw [List.head?_cons, Option.mem_def, Option.some_inj] at hy
        subst hy; exact hba, h⟩
    next hba =>
      have hab : key a ≤ key b := Nat.le_of_lt (Nat.lt_of_not_le hba)
      refine List.chain'_cons'.mpr ⟨fun y hy => ?_,
        chain'_insertByKeyDesc key a bs hbs⟩
      rcases head?_insertByKeyDesc key a bs with he | he
      · rw [he, Option.mem_def, Option.some_inj] at hy
        subst hy; exact hab
      · rw [he] at hy
        exact hb y hy

theorem chain'_sortByKeyDesc {α : Type} (key : α → Nat) :
    ∀ l : List α, List.Chain' (fun x y => key y ≤ key x) (sortByKeyDesc key l)
  | [] => List.chain'_nil
  | x :: xs => by
    rw [sortByKeyDesc]
    exact chain'_insertByKeyDesc key x _ (chain'_sortByKeyDesc key xs)

theorem chain'_take {α : Type} {R : α → α → Prop} :
    ∀ (l : List α) (n : Nat), List.Chain' R l → List.Chain' R (l.take n)
  | [], _, _ => by simp
  | _ :: _, 0, _ => by simp
  | [a], n, _ => by cases n <;> simp
  | a :: b :: l, n + 1, h => by
    rw [List.chain'_cons] at h
    cases n with
    | zero => simp
    | succ m =>
      rw [List.take, List.take, List.chain'_cons]
      exact ⟨h.1, chain'_take (b :: l) (m + 1) h.2⟩

theorem find?_addMessageToSessions_ne (userId u' : Nat) (now : Nat)
    (msg : ChatMessage) (h : u' ≠ userId) :
    ∀ l : List ChatSession,
      (addMessageToSessions userId now msg l).find? (fun s => s.userId == u')
        = l.find? (fun s => s.userId == u')
  | [] => by
    have hne : (userId == u') = false := by
      simp only [beq_eq_false_iff_ne]
      exact fun he => h he.symm
    simp only [addMessageToSessions, List.find?, hne]
  | s :: rest => by
    rw [addMessageToSessions]
    split
    next hs =>
      have hsu : s.userId = userId := eq_of_beq hs
      have hne : (s.userId == u') = false := by
        simp only [beq_eq_false_iff_ne]
        rw [hsu]; exact fun he => h he.symm
      simp only [List.find?, hne]
    next hs =>
      simp only [List.find?]
      split
      · rfl
      · exact find?_addMessageToSessions_ne userId u' now msg h rest

theorem find?_addMessageToSessions_self (userId : Nat) (now : Nat)
    (msg : ChatMessage) :
    ∀ l : List ChatSession,
      (((addMessageToSessions userId now msg l).find?
          (fun s => s.userId == userId)).map ChatSession.messages).getD []
        = ((l.find? (fun s => s.userId == userId)).map
            ChatSession.messages).getD [] ++ [msg]
  | [] => by simp [addMessageToSessions, List.find?]
  | s :: rest => by
    rw [addMessageToSessions]
    split
    next hs =>
      simp only [List.find?, hs]
      rfl
    next hs =>
      simp only [List.find?, hs]
      exact find?_addMessageToSessions_self userId now msg rest

theorem find?_filter_ne_user (userId u' : Nat) (h : u' ≠ userId) :
    ∀ l : List ChatSession,
      (l.filter (fun s => s.userId != userId)).find? (fun s => s.userId == u')
        = l.find? (fun s => s.userId == u')
  | [] => rfl
  | s :: rest => by
    by_cases hsu : s.userId = userId
    · have h1 : (s.userId != userId) = false := by simp [hsu]
      have h2 : (s.userId == u') = false := by
        simp only [beq_eq_false_iff_ne]
        rw [hsu]; exact fun he => h he.symm
      simp only [List.filter, h1, List.find?, h2]
      exact find?_filter_ne_user userId u' h rest
    · have h1 : (s.userId != userId) = true := by simp [hsu]
      simp only [List.filter, h1, List.find?]
      split
      · rfl
      · exact find?_filter_ne_user userId u' h rest

/-- Claim C1, counterexample: the claim says the default/primary provider's
(Gemini's) answer is returned unannotated, with the `(Powered by X)` suffix
reserved for non-default providers.  In the code, a successful Gemini answer
- Gemini being the first-tried, default provider - is returned and persisted
with the `(Powered by Google Gemini)` suffix, i.e. annotated. -/
theorem C1_counterexample :
    resultText (getIntegratedHomeworkHelp (some 1) "math" "q"
        (pureSvc (some "ans")) (pureSvc none) (pureSvc none))
      = some ("ans" ++ poweredByGemini)
    ∧ resultSource (getIntegratedHomeworkHelp (some 1) "math" "q"
        (pureSvc (some "ans")) (pureSvc none) (pureSvc none))
      = some "Gemini"
    ∧ "ans" ++ poweredByGemini ≠ "ans" :=
  ⟨rfl, rfl, by decide⟩

/-- Claim C1, amended: a Gemini-served answer carries the
`(Powered by Google Gemini)` suffix and a Perplexity-served answer the
`(Powered by Perplexity AI)` suffix, while an OpenAI-served answer is
returned unannotated; in every case the annotation is computed at the point
of success and the persisted assistant turn holds exactly the returned
(annotated) content. -/
theorem C1_attribution_amended (uid : Nat) (subject question t : String)
    (p o o2 : Svc) :
    (∃ r, getIntegratedHomeworkHelp (some uid) subject question
        (pureSvc (some t)) p o = .ok r
      ∧ r.returnedContent = t ++ poweredByGemini
      ∧ r.source = "Gemini"
      ∧ r.savedTurns.getLast? = some ⟨Role.assistant, r.returnedContent⟩)
    ∧ (∃ r, getIntegratedHomeworkHelp (some uid) subject question
        (pureSvc none) (pureSvc (some t)) o2 = .ok r
      ∧ r.returnedContent = t ++ poweredByPerplexity
      ∧ r.source = "Perplexity"
      ∧ r.savedTurns.getLast? = some ⟨Role.assistant, r.returnedContent⟩)
    ∧ (∃ r, getIntegratedHomeworkHelp (some uid) subject question
        (pureSvc none) (pureSvc none) (pureSvc (some t)) = .ok r
      ∧ r.returnedContent = t
      ∧ r.source = "OpenAI"
      ∧ r.savedTurns.getLast? = some ⟨Role.assistant, r.returnedContent⟩) :=
  ⟨⟨_, rfl, rfl, rfl, rfl⟩, ⟨_, rfl, rfl, rfl, rfl⟩, ⟨_, rfl, rfl, rfl, rfl⟩⟩

/-- Claim C2, counterexample: when every provider fails the orchestrator does
return normally with the fixed degraded message, but its source attribution
is `'Error'`, not `'none'` as the claim states. -/
theorem C2_counterexample :
    resultText (getIntegratedHomeworkHelp (some 1) "math" "q"
        (pureSvc none) (pureSvc none) (pureSvc none))
      = some degradedMessage
    ∧ resultSource (getIntegratedHomeworkHelp (some 1) "math" "q"
        (pureSvc none) (pureSvc none) (pureSvc none))
      = some "Error"
    ∧ "Error" ≠ "none" :=
  ⟨rfl, rfl, by decide⟩

/-- Claim C2, amended: whenever every configured provider fails, the
orchestrator (called with an authenticated user) returns normally - it does
not throw - with the fixed, non-empty degraded-service message, and its
source attribution is the string `'Error'` (not `'none'`). -/
theorem C2_degraded_result_amended (uid : Nat) (subject question : String) :
    ∃ r, getIntegratedHomeworkHelp (some uid) subject question
        (pureSvc none) (pureSvc none) (pureSvc none) = .ok r
      ∧ r.returnedContent = degradedMessage
      ∧ r.source = "Error"
      ∧ r.returnedContent ≠ "" := by
  refine ⟨_, rfl, rfl, rfl, ?_⟩
  show degradedMessage ≠ ""
  decide

/-- Claim C3: providers are tried one at a time in the priority order Gemini,
Perplexity, OpenAI; the first success stops the iteration (no later provider
is invoked, whatever those providers would do, and the attributed source is
the succeeding provider); a failure falls through to the next provider, so
when Gemini fails and Perplexity succeeds exactly two provider invocations
occur and the source is Perplexity. -/
theorem C3_provider_priority (uid : Nat) (subject question t : String)
    (p o o2 : Svc) :
    (∃ r, getIntegratedHomeworkHelp (some uid) subject question
        (pureSvc (some t)) p o = .ok r
      ∧ r.invoked = ["Gemini"] ∧ r.source = "Gemini")
    ∧ (∃ r, getIntegratedHomeworkHelp (some uid) subject question
        (pureSvc none) (pureSvc (some t)) o2 = .ok r
      ∧ r.invoked = ["Gemini", "Perplexity"] ∧ r.invoked.length = 2
      ∧ r.source = "Perplexity")
    ∧ (∃ r, getIntegratedHomeworkHelp (some uid) subject question
        (pureSvc none) (pureSvc none) (pureSvc (some t)) = .ok r
      ∧ r.invoked = ["Gemini", "Perplexity", "OpenAI"]
      ∧ r.source = "OpenAI") :=
  ⟨⟨_, rfl, rfl, rfl⟩, ⟨_, rfl, rfl, rfl, rfl⟩, ⟨_, rfl, rfl, rfl⟩⟩

/-- Claim C4, counterexample: composing the orchestrator with the real
helper services, a successful Gemini exchange persists four chat turns, not
two: the orchestrator saves the user turn, `getGeminiHomeworkHelp` itself
saves its own user and assistant turns, and the orchestrator then saves the
annotated assistant turn. -/
theorem C4_counterexample :
    resultTurnCount (getIntegratedHomeworkHelp (some 1) "math" "q"
        (geminiHelpSvc "math" "q" (some "ans") none)
        (perplexityHelpSvc "math" "q" none)
        (openaiHelpSvc "math" "q" none))
      = some 4
    ∧ some (4 : Nat) ≠ some 2 :=
  ⟨rfl, by decide⟩

/-- Claim C4, amended: counting only the appends `getIntegratedHomeworkHelp`
itself performs, every exchange - whatever the providers do - persists
exactly two turns, the user's message first and then exactly one assistant
turn holding the returned answer or degraded message; however, the provider
helper services it calls persist two further turns of their own on success,
so a successful exchange persists four turns in total. -/
theorem C4_persistence_amended (uid : Nat) (subject question : String)
    (g p o : Option String) :
    ∃ r, getIntegratedHomeworkHelp (some uid) subject question
        (pureSvc g) (pureSvc p) (pureSvc o) = .ok r
      ∧ r.savedTurns = [⟨Role.user, "[" ++ subject ++ "] " ++ question⟩,
          ⟨Role.assistant, r.returnedContent⟩] := by
  cases g <;> cases p <;> cases o <;> exact ⟨_, rfl, rfl⟩

theorem load_eq_getD (store : Option (List ChatSession)) (uid : Nat) :
    loadChatHistoryFromStorage false store uid
      = (((store.getD []).find? (fun s => s.userId == uid)).map
          ChatSession.messages).getD [] := by
  cases store with
  | none => rfl
  | some l =>
    show (match l.find? (fun s => s.userId == uid) with
      | some s => s.messages
      | none => []) = _
    cases h : l.find? (fun s => s.userId == uid) <;> simp [h]

/-- Claim C5, counterexample: the claim says a local cache write failure is
escalated to the caller.  In the code the whole body of
`saveChatMessageToStorage` sits in one try/catch whose catch returns a
fallback message, so even when the local `setItem` throws the call returns
normally - with the store unchanged, the turn silently lost. -/
theorem C5_counterexample :
    saveChatMessageToStorage false true false (some []) 1 Role.user "hi" "id0" 0
      = .ok (some [], mkChatMessage "id0" 0 1 Role.user "hi")
    ∧ (saveChatMessageToStorage false true false (some []) 1 Role.user "hi"
        "id0" 0).isOk = true :=
  ⟨rfl, rfl⟩

/-- Claim C5, amended: `saveChatMessageToStorage` never escalates a failure.
When reading and the local write succeed, the turn is appended to the
caller's cached history (a remote-write failure being swallowed and
irrelevant); when the local write fails - or the read does - the failure is
also swallowed: the call still returns normally, handing back a fallback
message, with the store left unchanged. -/
theorem C5_append_failure_semantics_amended (readF writeF remoteF : Bool)
    (store : Option (List ChatSession)) (userId : Nat) (role : Role)
    (content newId : String) (now : Nat) :
    (saveChatMessageToStorage readF writeF remoteF store userId role content
        newId now).isOk = true
    ∧ (∃ s', saveChatMessageToStorage false false remoteF store userId role
          content newId now
        = .ok (some s', mkChatMessage newId now userId role content)
      ∧ loadChatHistoryFromStorage false (some s') userId
        = loadChatHistoryFromStorage false store userId
            ++ [mkChatMessage newId now userId role content])
    ∧ saveChatMessageToStorage readF true remoteF store userId role content
        newId now
      = .ok (store, mkChatMessage newId now userId role content)
    ∧ saveChatMessageToStorage true writeF remoteF store userId role content
        newId now
      = .ok (store, mkChatMessage newId now userId role content) := by
  refine ⟨?_, ⟨addMessageToSessions userId now
      (mkChatMessage newId now userId role content) (store.getD []),
      rfl, ?_⟩, ?_, ?_⟩
  · cases readF <;> cases writeF <;> rfl
  · rw [load_eq_getD, load_eq_getD]
    simp only [Option.getD_some]
    exact find?_addMessageToSessions_self userId now
      (mkChatMessage newId now userId role content) (store.getD [])
  · cases readF <;> rfl
  · rfl

/-- Claim C10: `saveChatMessageToStorage` and `clearChatHistory` for user
`userId` leave every other user's session in the cached session list
unchanged, whatever the failure flags and whatever the starting store. -/
theorem C10_other_users_unchanged (readF writeF remoteF : Bool)
    (store : Option (List ChatSession)) (userId u' : Nat) (role : Role)
    (content newId : String) (now : Nat) (h : u' ≠ userId) :
    sessionFor (storeAfterSave (saveChatMessageToStorage readF writeF remoteF
        store userId role content newId now) store) u'
      = sessionFor store u'
    ∧ sessionFor (clearChatHistory readF writeF store userId) u'
      = sessionFor store u' := by
  constructor
  · cases readF with
    | false =>
      cases writeF with
      | false =>
        show sessionFor (some (addMessageToSessions userId now
          (mkChatMessage newId now userId role content) (store.getD []))) u'
            = sessionFor store u'
        unfold sessionFor
        simp only [Option.getD_some]
        exact find?_addMessageToSessions_ne userId u' now
          (mkChatMessage newId now userId role content) h (store.getD [])
      | true => rfl
    | true => rfl
  · cases readF with
    | false =>
      cases store with
      | none => rfl
      | some sessions =>
        cases writeF with
        | false =>
          show sessionFor (some (sessions.filter
              (fun s => s.userId != userId))) u'
            = sessionFor (some sessions) u'
          unfold sessionFor
          simp only [Option.getD_some]
          exact find?_filter_ne_user userId u' h sessions
        | true => rfl
    | true => rfl

/-- Witness for C10: applying it for users 1 (writer) and 2 (bystander) on a
concrete two-user cache. -/
theorem C10_other_users_unchanged_witness :
    (2 : Nat) ≠ 1
    ∧ (sessionFor (storeAfterSave (saveChatMessageToStorage false false false
          c10Store 1 Role.user "hello" "id1" 5) c10Store) 2
        = sessionFor c10Store 2
      ∧ sessionFor (clearChatHistory false false c10Store 1) 2
        = sessionFor c10Store 2) :=
  ⟨by decide, C10_other_users_unchanged false false false c10Store 1 2
    Role.user "hello" "id1" 5 (by decide)⟩

/-- Claim C6, counterexample: for A(score 10, older), B(score 10, newer),
C(score 5) the claim demands the ranking [B, A, C] - score descending with
ties broken by createdAt descending.  The query orders by the score
expression alone, with no secondary sort key, so equal-score posts keep
their relative row order and the result is [A, B, C], not [B, A, C]. -/
theorem C6_counterexample :
    getTrendingPosts [trendPostA, trendPostB, trendPostC]
      = [trendPostA, trendPostB, trendPostC]
    ∧ [trendPostA, trendPostB, trendPostC]
      ≠ [trendPostB, trendPostA, trendPostC] :=
  ⟨rfl, by decide⟩

/-- Claim C6, amended: `getTrendingPosts` returns only public posts, in
descending trending-score order, truncated to the requested limit, and drawn
from the public rows of the table - but with no createdAt tie-break: ties
keep their relative row order.  `getTrendingPostsWithMetrics` likewise sorts
by score descending and truncates, but applies no visibility filter at all
(only the author join), so a private post appears in its result. -/
theorem C6_trending_list_amended (db : List Post) (users : List Nat)
    (limit : Nat) :
    (getTrendingPosts db limit).all (fun p => p.visibility == "public") = true
    ∧ List.Chain' (fun x y => trendingScoreSql y.views y.likes y.saves
        ≤ trendingScoreSql x.views x.likes x.saves) (getTrendingPosts db limit)
    ∧ (getTrendingPosts db limit).length ≤ limit
    ∧ (∃ rest, (getTrendingPosts db limit ++ rest).Perm
        (db.filter (fun p => p.visibility == "public")))
    ∧ List.Chain' (fun x y => trendingScoreMetricsSql y.views y.likes y.saves
          ≤ trendingScoreMetricsSql x.views x.likes x.saves)
        (getTrendingPostsWithMetrics db users limit)
    ∧ (getTrendingPostsWithMetrics db users limit).length ≤ limit
    ∧ (∃ rest, (getTrendingPostsWithMetrics db users limit ++ rest).Perm
        (db.filter (fun p => users.contains p.userId)))
    ∧ getTrendingPostsWithMetrics [trendPostPrivate] [7] = [trendPostPrivate]
    ∧ trendPostPrivate.visibility = "private" := by
  unfold getTrendingPosts getTrendingPostsWithMetrics
  refine ⟨?_, ?_, ?_, ?_, ?_, ?_, ?_, rfl, rfl⟩
  · refine List.all_eq_true.mpr fun p hp => ?_
    have h1 := List.mem_of_mem_take hp
    have h2 := (sortByKeyDesc_perm
      (fun q : Post => trendingScoreSql q.views q.likes q.saves) _).mem_iff.mp h1
    exact (List.mem_filter.mp h2).2
  · exact chain'_take _ limit (chain'_sortByKeyDesc _ _)
  · rw [List.length_take]
    exact min_le_left _ _
  · exact ⟨(sortByKeyDesc (fun p => trendingScoreSql p.views p.likes p.saves)
      (db.filter (fun p => p.visibility == "public"))).drop limit,
      by rw [List.take_append_drop]; exact sortByKeyDesc_perm _ _⟩
  · exact chain'_take _ limit (chain'_sortByKeyDesc _ _)
  · rw [List.length_take]
    exact min_le_left _ _
  · exact ⟨(sortByKeyDesc
        (fun p => trendingScoreMetricsSql p.views p.likes p.saves)
        (db.filter (fun p => users.contains p.userId))).drop limit,
      by rw [List.take_append_drop]; exact sortByKeyDesc_perm _ _⟩

/-- Claim C7: both trending queries rank by the fixed weighting
`views*1 + likes*2 + saves*3` - the score expressions hard-coded in the two
queries agree with it for every input - and a post with views=10, likes=5,
saves=2 scores 26. -/
theorem C7_trending_score_weights (v l s : Nat) :
    trendingScoreSql v l s = v * 1 + l * 2 + s * 3
    ∧ trendingScoreMetricsSql v l s = v * 1 + l * 2 + s * 3
    ∧ trendingScoreSql 10 5 2 = 26 :=
  ⟨by unfold trendingScoreSql; ring, by unfold trendingScoreMetricsSql; ring,
    rfl⟩

/-- Claim C8, counterexample: the claim's formula
`(likes + saves + comments) / max(views, 1) * 100` gives 500 for a post with
views=0 and likes=5, but the code short-circuits every `views = 0` post to a
rate of 0, interactions or not. -/
theorem C8_counterexample :
    engagementRate 0 5 0 0 = 0
    ∧ engagementRateClaimed 0 5 0 0 = 500
    ∧ (0 : ℚ) ≠ 500 := by
  refine ⟨rfl, ?_, by norm_num⟩
  unfold engagementRateClaimed round2
  norm_num

/-- Claim C8, amended: the engagement rate is
`(likes + saves + comments) / views * 100` rounded to two decimal places
when `views > 0`, and exactly 0 whenever `views = 0` regardless of the
interaction counts; in particular views=100, likes=10, saves=5, comments=5
yields 20.00 and the all-zero post yields 0 without dividing by zero. -/
theorem C8_engagement_rate_amended (v l s c : Nat) :
    engagementRate 0 l s c = 0
    ∧ engagementRate (v + 1) l s c
      = round2 (((l : ℚ) + s + c) / ((v : ℚ) + 1) * 100)
    ∧ engagementRate 100 10 5 5 = 20
    ∧ engagementRate 0 0 0 0 = 0 := by
  refine ⟨rfl, ?_, ?_, rfl⟩
  · unfold engagementRate
    rw [if_pos (Nat.succ_pos v)]
    push_cast
    ring_nf
  · unfold engagementRate round2
    norm_num

/-- Claim C9, counterexample: the claim says every provider client
propagates an error whenever the underlying network call errors, never
returning a substitute answer.  The OpenAI chat client catches the SDK error
and returns a fixed substitute message normally. -/
theorem C9_counterexample :
    getAIChatResponse (Except.error ()) = Except.ok openaiSubstituteError
    ∧ (getAIChatResponse (Except.error ())).isOk = true :=
  ⟨rfl, rfl⟩

/-- Claim C9, amended: the Perplexity and Gemini clients fail - propagate an
error to the caller - whenever the network call errors or the backend
reports a non-success status (and Perplexity also when the key is missing,
before any call), each backend step being attempted at most once with no
internal retry; the OpenAI chat client, however, never fails: it returns a
fixed substitute message on error and a default string for empty content. -/
theorem C9_provider_failure_amended (o : Except Unit (Option String))
    (k c si : String) (fo : Except Unit FetchResponse)
    (po : Except Unit String) (pr : Except Unit Unit) :
    (getAIChatResponse o).isOk = true
    ∧ getAIChatResponse (Except.error ()) = Except.ok openaiSubstituteError
    ∧ getAIChatResponse (Except.ok none) = Except.ok openaiEmptySubstitute
    ∧ getAIChatResponse (Except.ok (some c)) = Except.ok c
    ∧ getPerplexityResponse none fo
      = Except.error "Perplexity API key not configured"
    ∧ getPerplexityResponse (some k) (Except.error ())
      = Except.error "Failed to get response from Perplexity API"
    ∧ getPerplexityResponse (some k) (Except.ok ⟨false, c⟩)
      = Except.error "Failed to get response from Perplexity API"
    ∧ getPerplexityResponse (some k) (Except.ok ⟨true, c⟩) = Except.ok c
    ∧ getGeminiResponse (some si) (Except.error ()) po
      = Except.error "Failed to get response from Gemini API"
    ∧ getGeminiResponse (some si) (Except.ok ()) (Except.error ())
      = Except.error "Failed to get response from Gemini API"
    ∧ getGeminiResponse (some si) (Except.ok ()) (Except.ok c) = Except.ok c
    ∧ getGeminiResponse none pr (Except.error ())
      = Except.error "Failed to get response from Gemini API"
    ∧ getGeminiResponse none pr (Except.ok c) = Except.ok c := by
  refine ⟨?_, rfl, rfl, rfl, rfl, rfl, rfl, rfl, rfl, rfl, rfl, rfl, rfl⟩
  cases o <;> rfl
